import Mathlib

/-!
Shallow embedding of the tenant-isolation and provisioning core of the
crm-raag backend (FastAPI + SQLAlchemy, schema-per-tenant multi-tenancy),
together with theorems settling the specification claims about it.

The embedded source files are:
  api/db/tenant.py        (get_db_tenant, get_db_public, tenant_schema)
  api/db/database.py      (AsyncSessionLocal over a shared connection pool)
  api/middleware/tenant.py (TenantMiddleware.dispatch)
  api/services/auth_service.py (AuthService.create_organization_with_owner)
  api/services/onboarding_service.py (OnboardingService.sync_all_tenants)
  api/services/reserved_subdomain_service.py (ReservedSubdomainService)
  api/utils/TenantUtils.py (TenantUtils.get_tenant_tables)
  api/models/organization.py, api/models/reserved_subdomain.py, api/models/user.py

Database state, the shared SQLAlchemy metadata (a Python-heap object the code
mutates in place), and the connection pool are threaded explicitly.  Fallible
Python code returns Except.  Storage failures (I/O errors during DDL or
inserts) are injected through explicit failure oracles, mirroring the fault
points of the source.
-/

namespace CrmRaag

/-- Python str.lower(), character by character.  (Defined over the character
list so that it evaluates by kernel reduction on concrete inputs.) -/
def pyLower (s : String) : String :=
  ⟨s.data.map Char.toLower⟩

/-- Python str.upper(), character by character. -/
def pyUpper (s : String) : String :=
  ⟨s.data.map Char.toUpper⟩

/-- Python str.split(sep) over the character list: splitting the empty string
yields [""], and every separator occurrence opens a new field. -/
def pySplitList (sep : Char) : List Char → List (List Char)
  | [] => [[]]
  | c :: rest =>
    match pySplitList sep rest with
    | [] => [[]]
    | g :: gs => if c = sep then [] :: g :: gs else (c :: g) :: gs

/-- Python str.split(sep) on strings. -/
def pySplit (sep : Char) (s : String) : List String :=
  (pySplitList sep s.data).map (fun cs => String.mk cs)

/-- Errors a request/operation can surface: FastAPI HTTPException carrying an
HTTP status code and a detail string, Python AttributeError, Python ValueError
(bad enum literal), SQLAlchemy MultipleResultsFound from scalar_one_or_none,
and an injected storage-layer failure. -/
inductive PyError where
  | httpException (statusCode : Nat) (detail : String)
  | attributeError (msg : String)
  | valueError (msg : String)
  | multipleResultsFound
  | storageError (msg : String)
deriving DecidableEq, Repr

/-- A SQLAlchemy Table object from the shared `Base.metadata.sorted_tables`:
its table name and its current schema binding (`None` for tenant-local
blueprints, `some "public"` for shared-namespace tables).  The source mutates
the `schema` field in place, so lists of these are threaded as state. -/
structure TableObj where
  name : String
  schema : Option String
deriving DecidableEq, Repr

/-- Lifecycle status enum from api/models/organization.py. -/
inductive OrgStatus where
  | ACTIVE
  | SUSPENDED
  | DELETED
deriving DecidableEq, Repr

/-- RAG configuration variant enum from api/models/organization.py. -/
inductive RagType where
  | BASIC
  | ADV
  | CUS
deriving DecidableEq, Repr

/-- Python `OrgStatus(s.upper())`: returns the member whose value matches, and
none where Python raises ValueError. -/
def OrgStatus.parse (s : String) : Option OrgStatus :=
  if pyUpper s = "ACTIVE" then some .ACTIVE
  else if pyUpper s = "SUSPENDED" then some .SUSPENDED
  else if pyUpper s = "DELETED" then some .DELETED
  else none

/-- Python `RagType(s.upper())`: returns the member whose value matches, and
none where Python raises ValueError. -/
def RagType.parse (s : String) : Option RagType :=
  if pyUpper s = "BASIC" then some .BASIC
  else if pyUpper s = "ADV" then some .ADV
  else if pyUpper s = "CUS" then some .CUS
  else none

/-- A row of public.organizations (api/models/organization.py).  The id and
the two timestamps are system-generated and play no role in any claim, so they
are omitted.  The column holding the physical namespace is `schema_name`; the
class has no attribute named `schema`. -/
structure Organization where
  email : String
  name : String
  schema_name : String
  subdomain : String
  status : OrgStatus := .ACTIVE
  rag_type : RagType := .BASIC
deriving DecidableEq, Repr

/-- Python attribute access `organization.schema` (api/middleware/tenant.py,
line 55) and the column expression `Organization.schema`
(api/services/onboarding_service.py, line 46).  The mapped class in
api/models/organization.py declares the column `schema_name` and maps no
attribute named `schema`, so in Python both accesses raise AttributeError. -/
def Organization.schemaAttr (_o : Organization) : Except PyError String :=
  .error (.attributeError "Organization object has no attribute schema")

/-- SQLAlchemy `Result.scalar_one_or_none()`: none for no row, the row when it
is unique, and MultipleResultsFound when several rows match. -/
def scalarOneOrNone {α : Type} (rows : List α) : Except PyError (Option α) :=
  match rows with
  | [] => .ok none
  | [a] => .ok (some a)
  | _ :: _ :: _ => .error .multipleResultsFound

/-! ## Connection pool and the two session dependencies (api/db/tenant.py)

`AsyncSessionLocal()` draws a pooled physical connection; PostgreSQL
`SET search_path` is a connection-level setting that survives transaction end,
so whatever search_path a unit of work leaves on the connection is what the
next unit of work drawing that connection starts with. -/

/-- A pooled physical database connection with its current search_path. -/
structure Conn where
  searchPath : String
deriving DecidableEq, Repr

/-- The shared connection pool: the list of free connections.  A fresh
connection (empty pool) starts with the server default search_path, which
resolves to the public schema. -/
structure Pool where
  free : List Conn
deriving DecidableEq, Repr

/-- Pool checkout: take the first free connection, or open a fresh one. -/
def Pool.acquire : Pool → Conn × Pool
  | ⟨[]⟩ => (⟨"public"⟩, ⟨[]⟩)
  | ⟨c :: rest⟩ => (c, ⟨rest⟩)

/-- Pool checkin: the connection goes back exactly as the unit of work left
it; nothing in api/db/tenant.py or api/db/database.py resets search_path. -/
def Pool.release (p : Pool) (c : Conn) : Pool := ⟨c :: p.free⟩

/-- One unit of work through `get_db_tenant` (api/db/tenant.py, lines 13 to
26): read the tenant_schema ContextVar, check a session out of the pool,
execute `SET search_path TO "<schema>"`, let the endpoint body observe that
session, then close the session, returning the connection to the pool with
its search_path untouched (the source has no reset after the yield).  Result:
the search_path the body ran under, and the pool afterwards. -/
def get_db_tenant_unit (tenantSchemaVar : String) (p : Pool) : String × Pool :=
  let (conn, p1) := p.acquire
  let conn2 : Conn := { conn with searchPath := tenantSchemaVar }
  (conn2.searchPath, p1.release conn2)

/-- One unit of work through `get_db_public` (api/db/tenant.py, lines 29 to
41): check a session out of the pool and yield it directly — the
`SET search_path TO "public"` statement in the source is commented out, so the
body runs under whatever search_path the pooled connection already carries. -/
def get_db_public_unit (p : Pool) : String × Pool :=
  let (conn, p1) := p.acquire
  (conn.searchPath, p1.release conn)

/-! ## Tenant resolver (api/middleware/tenant.py) -/

/-- Outcome of `TenantMiddleware.dispatch` for one request. -/
inductive DispatchOutcome where
  | passthroughPublic
  | proceedTenant (schemaName : String)
  | httpError (statusCode : Nat) (detail : String)
  | internalError (msg : String)
deriving DecidableEq, Repr

/-- The main-domain constant of api/middleware/tenant.py, line 20. -/
def main_domain : String := "localhost"

/-- `request.headers.get("host", "").split(":")[0]` — the hostname of the
request, an empty string when the header is absent. -/
def hostnameOf (hostHeader : Option String) : String :=
  (pySplit ':' (hostHeader.getD "")).headD ""

/-- `hostname.split(".")[0]` — the subdomain label. -/
def subdomainOf (hostname : String) : String :=
  (pySplit '.' hostname).headD ""

/-- `TenantMiddleware.dispatch` (api/middleware/tenant.py, lines 11 to 69)
over the public organizations registry: pass main-domain requests through;
otherwise look the subdomain up against public.organizations with a dedicated
public-schema session, reject with 404 when no row matches, and on a match
read `organization.schema` to bind the tenant context.  That attribute read
raises AttributeError (the model declares `schema_name`), which escapes
dispatch as an internal error. -/
def TenantMiddleware.dispatch (registry : List Organization)
    (hostHeader : Option String) : DispatchOutcome :=
  let hostname := hostnameOf hostHeader
  if hostname = main_domain then
    .passthroughPublic
  else
    let subdomain := subdomainOf hostname
    match scalarOneOrNone (registry.filter (fun o => o.subdomain == subdomain)) with
    | .error _ => .internalError "MultipleResultsFound"
    | .ok none =>
        .httpError 404 ("Workspace with subdomain " ++ subdomain ++ " not found.")
    | .ok (some organization) =>
        match organization.schemaAttr with
        | .error (.attributeError m) => .internalError m
        | .error _ => .internalError "unexpected"
        | .ok schemaName => .proceedTenant schemaName

/-! ## Shared metadata and database state -/

/-- A table belongs to the tenant-local blueprint set when its schema is not
public — the filter of TenantUtils.get_tenant_tables and of
OnboardingService.get_tenant_models. -/
def TableObj.isTenantLocal (t : TableObj) : Bool :=
  t.schema != some "public"

/-- TenantUtils.get_tenant_tables (api/utils/TenantUtils.py, lines 8 to 11)
and OnboardingService.get_tenant_models (same filter over
Base.metadata.sorted_tables). -/
def get_tenant_tables (sortedTables : List TableObj) : List TableObj :=
  sortedTables.filter (fun t => t.isTenantLocal)

/-- User role enum from api/models/user.py. -/
inductive UserRole where
  | ROLE_USER
  | ROLE_ADMIN
deriving DecidableEq, Repr

/-- A row of a per-schema users table (UserBase columns of
api/models/user.py; id and timestamps are system-generated and omitted). -/
structure UserRow where
  name : String
  email : String
  password : String
  role : UserRole
  is_owner : Bool
deriving DecidableEq, Repr

/-- The database state the embedded operations read and write:
the shared-namespace registry and reserved list, plus the physical
namespaces, their tables, and their users rows. -/
structure DbState where
  organizations : List Organization
  reserved_subdomains : List String
  schemas : List String
  tables : List (String × String)
  users : List (String × UserRow)
deriving DecidableEq, Repr

/-- Modelled from the spec: the external security collaborator
`hash_credential(plaintext) -> opaque_hash` (consumed as
api/utils/security.py hash_password; its internals are outside the specified
core). -/
def hash_password (plaintext : String) : String :=
  "hashed-" ++ plaintext

/-- SQLAlchemy `metadata.create_all(tables=tbls, checkfirst=True)` executed on
a connection whose search_path is sp: each Table is created under its bound
schema when the object carries one (an explicitly bound Table ignores
search_path), otherwise under sp, and only the missing ones are created. -/
def create_all (sp : String) (tbls : List TableObj)
    (existing : List (String × String)) : List (String × String) :=
  existing ++ (tbls.map (fun t => (t.schema.getD sp, t.name))).filter
    (fun p => !(existing.contains p))

/-! ## Onboarding orchestrator (api/services/auth_service.py) -/

/-- The request body CreateOrganizationRequest of api/schemas/organization.py,
with the pydantic defaults for status and rag_type. -/
structure CreateOrganizationRequest where
  email : String
  org_name : String
  name : String
  subdomain : String
  password : String
  status : String := "ACTIVE"
  rag_type : String := "BASIC"
deriving DecidableEq, Repr

/-- Injected storage failures at the three fault points the spec names for
onboarding: schema creation, tenant table creation, owner insertion. -/
structure FailureOracle where
  failCreateSchema : Bool := false
  failCreateTables : Bool := false
  failInsertOwner : Bool := false
deriving DecidableEq, Repr

/-- The in-place mutation loop of api/services/auth_service.py, lines 107 to
108: `for table in tenant_tables: table.schema = schema_name`, run over the
shared canonical Table objects (all tenant-local ones except
reserved_subdomains). -/
def bindTenantTables (meta : List TableObj) (schemaName : String) : List TableObj :=
  meta.map (fun t =>
    if t.isTenantLocal && t.name != "reserved_subdomains"
    then { t with schema := some schemaName } else t)

/-- The restore loop of api/services/auth_service.py, lines 110 to 111:
`for table in tenant_tables: table.schema = None`, run over the same captured
Table objects (identified here by their pre-mutation fields). -/
def unbindTenantTables (meta : List TableObj) : List TableObj :=
  meta.map (fun t =>
    if t.isTenantLocal && t.name != "reserved_subdomains"
    then { t with schema := none } else t)

instance {ε α : Type} [DecidableEq ε] [DecidableEq α] : DecidableEq (Except ε α) := fun a b =>
  match a, b with
  | .error e, .error f =>
      if h : e = f then .isTrue (congrArg Except.error h)
      else .isFalse (fun hc => h (Except.error.inj hc))
  | .ok x, .ok y =>
      if h : x = y then .isTrue (congrArg Except.ok h)
      else .isFalse (fun hc => h (Except.ok.inj hc))
  | .error _, .ok _ => .isFalse (fun hc => Except.noConfusion hc)
  | .ok _, .error _ => .isFalse (fun hc => Except.noConfusion hc)

/-- The result of one onboarding call: its outcome, the database afterwards,
and the shared canonical metadata afterwards. -/
structure OnboardResult where
  outcome : Except PyError (Organization × UserRow)
  db : DbState
  meta : List TableObj
deriving DecidableEq, Repr

/-- AuthService.create_organization_with_owner (api/services/auth_service.py,
lines 71 to 141).  slug stands for secrets.token_hex(8).  The whole body runs
inside `async with self.session.begin()` on one dedicated connection;
PostgreSQL DDL is transactional, so on any raise the database rolls back to
db0 — while the in-place mutation of the shared Python metadata is not
transactional and keeps whatever the code last wrote. -/
def create_organization_with_owner (db0 : DbState) (meta0 : List TableObj)
    (payload : CreateOrganizationRequest) (slug : String)
    (oracle : FailureOracle) : OnboardResult :=
  let subdomain := pyLower payload.subdomain
  let schema_name := subdomain ++ "_" ++ slug
  match scalarOneOrNone (db0.reserved_subdomains.filter (fun r => r == subdomain)) with
  | .error e => { outcome := .error e, db := db0, meta := meta0 }
  | .ok (some _) =>
      { outcome := .error (.httpException 400
          ("The subdomain " ++ payload.subdomain ++
            " is reserved by redagent.dev and cannot be used.")),
        db := db0, meta := meta0 }
  | .ok none =>
    match scalarOneOrNone (db0.organizations.filter
        (fun o => o.email == payload.email || o.subdomain == subdomain)) with
    | .error e => { outcome := .error e, db := db0, meta := meta0 }
    | .ok (some _) =>
        { outcome := .error
            (.httpException 400 "Org with this email or subdomain already exists."),
          db := db0, meta := meta0 }
    | .ok none =>
      if oracle.failCreateSchema then
        { outcome := .error (.storageError "CREATE SCHEMA failed"),
          db := db0, meta := meta0 }
      else
        let db1 := { db0 with schemas :=
          if db0.schemas.contains schema_name then db0.schemas
          else db0.schemas ++ [schema_name] }
        match OrgStatus.parse payload.status, RagType.parse payload.rag_type with
        | some st, some rt =>
          let new_org : Organization :=
            { email := payload.email, name := payload.org_name,
              schema_name := schema_name, subdomain := subdomain,
              status := st, rag_type := rt }
          let db2 := { db1 with organizations := db1.organizations ++ [new_org] }
          let tenant_tables := (get_tenant_tables meta0).filter
            (fun t => t.name != "reserved_subdomains")
          let metaBound := bindTenantTables meta0 schema_name
          if oracle.failCreateTables then
            { outcome := .error (.storageError "create_all failed"),
              db := db0, meta := metaBound }
          else
            let boundTargets := tenant_tables.map
              (fun t => { t with schema := some schema_name })
            let db3 := { db2 with tables := create_all "public" boundTargets db2.tables }
            let metaRestored := unbindTenantTables meta0
            if oracle.failInsertOwner then
              { outcome := .error (.storageError "owner insert failed"),
                db := db0, meta := metaRestored }
            else
              let owner : UserRow :=
                { name := payload.name, email := payload.email,
                  password := hash_password payload.password,
                  role := .ROLE_ADMIN, is_owner := true }
              let db4 := { db3 with users := db3.users ++ [(schema_name, owner)] }
              { outcome := .ok (new_org, owner), db := db4, meta := metaRestored }
        | _, _ =>
          { outcome := .error (.valueError "not a valid OrgStatus or RagType"),
            db := db0, meta := meta0 }

/-! ## Reserved-identifier store (api/services/reserved_subdomain_service.py) -/

/-- ReservedSubdomainService.create_subdomain (api/services/
reserved_subdomain_service.py, lines 13 to 29): reject when
data.subdomain.lower() is already reserved, otherwise insert the lowercased
value. -/
def create_subdomain (store : List String) (requested : String) :
    Except PyError (List String) :=
  match scalarOneOrNone (store.filter (fun r => r == pyLower requested)) with
  | .error e => .error e
  | .ok (some _) =>
      .error (.httpException 409
        ("Subdomain " ++ requested ++ " is already reserved."))
  | .ok none => .ok (store ++ [pyLower requested])

/-! ## Sync orchestrator (api/services/onboarding_service.py) -/

/-- The column expression `select(Organization.schema)` of
api/services/onboarding_service.py, line 46.  The mapped class declares the
column `schema_name` and has no attribute named `schema`, so evaluating this
expression raises AttributeError before any row is read. -/
def selectOrganizationSchemaColumn (_orgs : List Organization) :
    Except PyError (List String) :=
  .error (.attributeError "type object Organization has no attribute schema")

/-- The result of one sync_all_tenants call: the synced_schemas list (or the
error that escaped), and the database afterwards. -/
structure SyncResult where
  outcome : Except PyError (List String)
  db : DbState
deriving DecidableEq, Repr

/-- The per-tenant loop of sync_all_tenants (api/services/
onboarding_service.py, lines 53 to 59): for each schema, SET search_path to
it and run metadata.create_all(tables=tenant_tables, checkfirst=True) inside
a savepoint.  oracle injects a storage failure while syncing a given schema;
the loop has no handler, so the savepoint discards that tenant's partial work
and the exception escapes the whole call. -/
def sync_go (tenant_tables : List TableObj) (oracle : String → Bool) :
    List String → DbState → List String → SyncResult
  | [], db, synced => { outcome := .ok synced.reverse, db := db }
  | s :: rest, db, synced =>
    if oracle s then
      { outcome := .error (.storageError ("create_all failed for schema " ++ s)),
        db := db }
    else
      sync_go tenant_tables oracle rest
        { db with tables := create_all s tenant_tables db.tables } (s :: synced)

/-- OnboardingService.sync_all_tenants (api/services/onboarding_service.py,
lines 41 to 63): select the schema of every organization row, then run the
per-tenant loop.  As written the select raises AttributeError (see
selectOrganizationSchemaColumn), so the call fails before touching any
namespace. -/
def sync_all_tenants (db0 : DbState) (meta : List TableObj)
    (oracle : String → Bool) : SyncResult :=
  match selectOrganizationSchemaColumn db0.organizations with
  | .error e => { outcome := .error e, db := db0 }
  | .ok all_schemas => sync_go (get_tenant_tables meta) oracle all_schemas db0 []

/-- sync_all_tenants with the one broken attribute read replaced by the
column the source plainly intends, schema_name — the nearest runnable reading
of line 46; every other step is identical to sync_all_tenants.  Used to
settle the claims about the loop itself. -/
def sync_all_tenants_intended (db0 : DbState) (meta : List TableObj)
    (oracle : String → Bool) : SyncResult :=
  let all_schemas := db0.organizations.map (fun o => o.schema_name)
  sync_go (get_tenant_tables meta) oracle all_schemas db0 []

/-! ## Concrete fixtures used by the counterexamples and witnesses -/

/-- A small canonical metadata: two shared-namespace tables and two
tenant-local blueprints (schema None until bound). -/
def exMeta : List TableObj :=
  [⟨"organizations", some "public"⟩, ⟨"reserved_subdomains", some "public"⟩,
   ⟨"users", none⟩, ⟨"categories", none⟩]

/-- A database holding no tenants and nothing reserved. -/
def exDb : DbState :=
  { organizations := [], reserved_subdomains := [], schemas := ["public"],
    tables := [], users := [] }

/-- A plain well-formed onboarding request. -/
def exPayload : CreateOrganizationRequest :=
  { email := "a@x.com", org_name := "Acme", name := "Alice",
    subdomain := "acme", password := "pw" }

/-- A registry row for the ghost workspace, status left as a parameter. -/
def ghostOrg (st : OrgStatus) : Organization :=
  { email := "g@x.com", name := "Ghost", schema_name := "ghost_9a",
    subdomain := "ghost", status := st }

/-- A registry row for the acme workspace. -/
def acmeOrg : Organization :=
  { email := "a@x.com", name := "Acme", schema_name := "acme_11",
    subdomain := "acme" }

/-- A registry row for the beta workspace. -/
def betaOrg : Organization :=
  { email := "b@y.com", name := "Beta", schema_name := "beta_22",
    subdomain := "beta" }

/-- A database with the acme tenant registered and its namespace present but
holding none of the tenant tables yet. -/
def syncDb : DbState :=
  { organizations := [acmeOrg], reserved_subdomains := [],
    schemas := ["public", "acme_11"], tables := [], users := [] }

/-- A database with the acme and beta tenants registered, neither namespace
holding any tenant table yet. -/
def syncDb2 : DbState :=
  { organizations := [acmeOrg, betaOrg], reserved_subdomains := [],
    schemas := ["public", "acme_11", "beta_22"], tables := [], users := [] }

/-- The failure-free sync oracle. -/
def noFail : String → Bool := fun _ => false

/-- A sync oracle making the create_all for the acme namespace fail. -/
def failAcme : String → Bool := fun s => s == "acme_11"

/-! ## Helper lemmas -/

/-- The loop of sync_all_tenants with no failures succeeds and reports the
accumulator followed by every schema of its work list, in order. -/
theorem sync_go_noFail_outcome (tt : List TableObj) (schemas : List String)
    (db : DbState) (acc : List String) :
    (sync_go tt noFail schemas db acc).outcome = .ok (acc.reverse ++ schemas) := by
  induction schemas generalizing db acc with
  | nil => simp [sync_go]
  | cons s rest ih =>
      simp [sync_go, noFail, ih, List.reverse_cons, List.append_assoc]

/-- The loop of sync_all_tenants, given a work list whose schemas before s all
sync cleanly while the create_all for s fails: the raised error escapes with
the database as it stood after the pre-s schemas, and the schemas after s are
never examined. -/
theorem sync_go_abort (tt : List TableObj) (oracle : String → Bool)
    (pre : List String) (s : String) (post : List String)
    (db : DbState) (acc : List String)
    (hpre : ∀ x ∈ pre, oracle x = false) (hs : oracle s = true) :
    sync_go tt oracle (pre ++ s :: post) db acc
      = { outcome := .error (.storageError ("create_all failed for schema " ++ s)),
          db := (sync_go tt oracle pre db acc).db } := by
  induction pre generalizing db acc with
  | nil => simp [sync_go, hs]
  | cons x rest ih =>
      have hx : oracle x = false := hpre x (by simp)
      simp only [List.cons_append, sync_go, hx, Bool.false_eq_true, if_false]
      exact ih _ _ (fun y hy => hpre y (by simp [hy]))

/-- Every entry of a store produced by ReservedSubdomainService.create_subdomain
was already in the store or is the lowercased requested handle: the service
never inserts a string that is not an image of String.toLower. -/
theorem create_subdomain_inserts_lowercase (store : List String)
    (requested : String) (store2 : List String)
    (h : create_subdomain store requested = .ok store2) :
    ∀ s ∈ store2, s ∈ store ∨ s = pyLower requested := by
  unfold create_subdomain at h
  split at h
  · exact absurd h (by simp)
  · exact absurd h (by simp)
  · rw [Except.ok.injEq] at h
    intro s hs
    rw [← h] at hs
    rcases List.mem_append.mp hs with h1 | h2
    · exact Or.inl h1
    · exact Or.inr (List.mem_singleton.mp h2)

/-! ## Claims -/

/-- C1: the claim states that a connection obtained through get_db_tenant has
its search_path reset to the default before it is returned to the shared
pool, and that no pooled connection is ever handed to a later unit of work
still bound to a previous tenant namespace.  The code does neither: the
tenant session is closed with no reset after the yield, and the compensating
`SET search_path TO "public"` in get_db_public is commented out.  Evaluated
here: with one pooled connection starting at the default path, a
get_db_tenant unit for acme_1f2e returns the connection to the pool still
bound to acme_1f2e, and the next get_db_public unit runs its whole body on
search_path acme_1f2e rather than public. -/
theorem c1_pooled_connection_keeps_tenant_search_path :
    (get_db_tenant_unit "acme_1f2e" ⟨[⟨"public"⟩]⟩).2 = ⟨[⟨"acme_1f2e"⟩]⟩
    ∧ (get_db_public_unit (get_db_tenant_unit "acme_1f2e" ⟨[⟨"public"⟩]⟩).2).1
        = "acme_1f2e"
    ∧ (get_db_public_unit (get_db_tenant_unit "acme_1f2e" ⟨[⟨"public"⟩]⟩).2).1
        ≠ "public" :=
  ⟨rfl, rfl, by decide⟩

/-- C3 counterexample: a request whose subdomain resolves to a SUSPENDED
organization is not rejected with an inaccessible error — dispatch treats it
exactly as it would the same organization with status ACTIVE (and, as
written, each such matched request dies with the internal AttributeError from
reading organization.schema, not with any status-based rejection). -/
theorem c3_suspended_tenant_not_rejected :
    TenantMiddleware.dispatch [ghostOrg .SUSPENDED] (some "ghost.example.com")
      = .internalError "Organization object has no attribute schema"
    ∧ TenantMiddleware.dispatch [ghostOrg .SUSPENDED] (some "ghost.example.com")
      = TenantMiddleware.dispatch [ghostOrg .ACTIVE] (some "ghost.example.com") :=
  ⟨rfl, rfl⟩

/-- C3 amended: the Tenant Resolver performs no status check at all — the
outcome of TenantMiddleware.dispatch is invariant under arbitrarily rewriting
the status of every registry row, so a SUSPENDED or DELETED tenant is handled
exactly like an ACTIVE one and no inaccessible rejection exists. -/
theorem c3_status_never_consulted (registry : List Organization)
    (hostHeader : Option String) (f : Organization → OrgStatus) :
    TenantMiddleware.dispatch
        (registry.map (fun o => { o with status := f o })) hostHeader
      = TenantMiddleware.dispatch registry hostHeader := by
  simp only [TenantMiddleware.dispatch]
  by_cases h : hostnameOf hostHeader = main_domain
  · simp [h]
  · simp only [h, if_false]
    have hf : (registry.map (fun o => { o with status := f o })).filter
          (fun o => o.subdomain == subdomainOf (hostnameOf hostHeader))
        = (registry.filter
            (fun o => o.subdomain == subdomainOf (hostnameOf hostHeader))).map
              (fun o => { o with status := f o }) := by
      induction registry with
      | nil => rfl
      | cons a l ih =>
          by_cases hs : (a.subdomain == subdomainOf (hostnameOf hostHeader)) = true
          · simp [List.filter_cons, hs, ih]
          · simp [List.filter_cons, hs, ih]
    rw [hf]
    cases hl : registry.filter
        (fun o => o.subdomain == subdomainOf (hostnameOf hostHeader)) with
    | nil => rfl
    | cons a t =>
        cases t with
        | nil => rfl
        | cons b t2 => rfl

/-- C4 counterexample: a request with no host header at all and a request with
an unknown subdomain are rejected with the same kind of error — both fall
into the single 404 workspace-not-found branch (the absent header merely
yields the empty subdomain string in the message); no distinct
identification-required rejection exists in the code. -/
theorem c4_missing_and_unknown_signal_same_error :
    TenantMiddleware.dispatch [acmeOrg] none
      = .httpError 404 "Workspace with subdomain  not found."
    ∧ TenantMiddleware.dispatch [acmeOrg] (some "ghost.localhost")
      = .httpError 404 "Workspace with subdomain ghost not found." :=
  ⟨rfl, rfl⟩

/-- C4 amended: absence of the tenant signal is treated identically to an
unknown signal — every non-main-domain request whose subdomain label (the
empty string when the host header is missing) matches no registry row is
rejected with the same 404 workspace-not-found error. -/
theorem c4_unmatched_subdomain_yields_not_found (registry : List Organization)
    (hostHeader : Option String)
    (h1 : hostnameOf hostHeader ≠ main_domain)
    (h2 : registry.filter
        (fun o => o.subdomain == subdomainOf (hostnameOf hostHeader)) = []) :
    TenantMiddleware.dispatch registry hostHeader
      = .httpError 404 ("Workspace with subdomain "
          ++ subdomainOf (hostnameOf hostHeader) ++ " not found.") := by
  simp only [TenantMiddleware.dispatch]
  rw [if_neg h1, h2]
  rfl

/-- C4 witness: the amended theorem applied to a registry containing only the
acme workspace and a request with no host header. -/
theorem c4_witness :
    TenantMiddleware.dispatch [acmeOrg] none
      = .httpError 404 ("Workspace with subdomain "
          ++ subdomainOf (hostnameOf none) ++ " not found.") :=
  c4_unmatched_subdomain_yields_not_found [acmeOrg] none (by decide) rfl

/-- C2: whenever create_organization_with_owner fails — at validation, at
enum parsing, at namespace creation, at tenant table creation or at owner
insertion — the database afterwards equals the database before: the whole
body runs inside one transaction on one dedicated connection and PostgreSQL
DDL is transactional, so no Organization row, no namespace and no
tenant-local table survives a failed call. -/
theorem c2_onboarding_failure_leaves_no_visible_side_effects
    (db0 : DbState) (meta0 : List TableObj) (payload : CreateOrganizationRequest)
    (slug : String) (oracle : FailureOracle) (e : PyError)
    (herr : (create_organization_with_owner db0 meta0 payload slug oracle).outcome
        = .error e) :
    (create_organization_with_owner db0 meta0 payload slug oracle).db = db0 := by
  revert herr
  simp only [create_organization_with_owner]
  repeat' split
  all_goals intro herr
  all_goals first | rfl | simp at herr

/-- C2 witness: when the tenant table creation fails, the database is exactly
what it was before the call. -/
theorem c2_witness :
    (create_organization_with_owner exDb exMeta exPayload "1f2e"
        { failCreateTables := true }).db = exDb :=
  c2_onboarding_failure_leaves_no_visible_side_effects exDb exMeta exPayload "1f2e"
    { failCreateTables := true } (.storageError "create_all failed") rfl

/-- In a duplicate-free store that contains a, filtering for a yields exactly
the one-element list. -/
theorem filter_beq_of_nodup_mem {l : List String} {a : String}
    (hnd : l.Nodup) (hmem : a ∈ l) :
    l.filter (fun r => r == a) = [a] := by
  induction l with
  | nil => cases hmem
  | cons x t ih =>
      by_cases hx : x = a
      · have hxt : x ∉ t := (List.nodup_cons.mp hnd).1
        have ht : t.filter (fun r => r == a) = [] := by
          rw [List.filter_eq_nil_iff]
          intro b hb
          simp only [beq_iff_eq]
          intro hba
          apply hxt
          rw [hx, ← hba]
          exact hb
        simp [List.filter_cons, hx, ht]
      · have hmem2 : a ∈ t := by
          rcases List.mem_cons.mp hmem with h | h
          · exact absurd h.symm hx
          · exact h
        have hxb : (x == a) = false := by
          simp only [beq_eq_false_iff_ne]
          exact hx
        simp [List.filter_cons, hxb, ih (List.nodup_cons.mp hnd).2 hmem2]

/-- C5: for every handle H in the reserved store (which, by construction
through ReservedSubdomainService, holds pairwise-distinct lowercase strings —
see create_subdomain_inserts_lowercase), onboarding with that handle fails
with the 400 reserved-subdomain rejection raised before any write, inside the
transaction, so the database and the shared metadata are untouched. -/
theorem c5_reserved_handle_onboarding_fails
    (db0 : DbState) (meta0 : List TableObj) (payload : CreateOrganizationRequest)
    (slug : String) (oracle : FailureOracle) (H : String)
    (hmem : H ∈ db0.reserved_subdomains) (hnd : db0.reserved_subdomains.Nodup)
    (hlow : pyLower H = H) (hsub : payload.subdomain = H) :
    (create_organization_with_owner db0 meta0 payload slug oracle).outcome
      = .error (.httpException 400 ("The subdomain " ++ H
          ++ " is reserved by redagent.dev and cannot be used."))
    ∧ (create_organization_with_owner db0 meta0 payload slug oracle).db = db0
    ∧ (create_organization_with_owner db0 meta0 payload slug oracle).meta = meta0 := by
  have hfilter : db0.reserved_subdomains.filter
      (fun r => r == pyLower payload.subdomain) = [H] := by
    rw [hsub, hlow]
    exact filter_beq_of_nodup_mem hnd hmem
  simp only [create_organization_with_owner]
  rw [hfilter, hsub]
  exact ⟨rfl, rfl, rfl⟩

/-- A database whose reserved store holds the handle admin. -/
def resDb : DbState :=
  { organizations := [], reserved_subdomains := ["admin"],
    schemas := ["public"], tables := [], users := [] }

/-- An onboarding request asking for the reserved handle admin. -/
def resPayload : CreateOrganizationRequest :=
  { email := "a@x.com", org_name := "Acme", name := "Alice",
    subdomain := "admin", password := "pw" }

/-- C5 witness: onboarding with the reserved handle admin fails with the 400
rejection and changes nothing. -/
theorem c5_witness :
    (create_organization_with_owner resDb exMeta resPayload "1f2e" {}).outcome
      = .error (.httpException 400 ("The subdomain " ++ "admin"
          ++ " is reserved by redagent.dev and cannot be used."))
    ∧ (create_organization_with_owner resDb exMeta resPayload "1f2e" {}).db = resDb
    ∧ (create_organization_with_owner resDb exMeta resPayload "1f2e" {}).meta = exMeta :=
  c5_reserved_handle_onboarding_fails resDb exMeta resPayload "1f2e" {} "admin"
    (by decide) (by decide) (by decide) rfl

/-- A database holding one organization whose contact email is all
lowercase. -/
def c6Db : DbState :=
  { organizations := [{ email := "alice@x.com", name := "Acme",
                        schema_name := "acme_11", subdomain := "acme" }],
    reserved_subdomains := [], schemas := ["public", "acme_11"],
    tables := [], users := [] }

/-- An onboarding request whose email differs from the registered one only in
letter case. -/
def c6Payload : CreateOrganizationRequest :=
  { email := "Alice@x.com", org_name := "Beta", name := "Bob",
    subdomain := "beta", password := "pw" }

/-- An onboarding request whose email equals the registered one exactly. -/
def c6PayloadDup : CreateOrganizationRequest :=
  { email := "alice@x.com", org_name := "Gamma", name := "Carol",
    subdomain := "gamma", password := "pw" }

/-- C6 counterexample: with alice@x.com registered, onboarding with
Alice@x.com — the same email up to letter case — is not rejected: validation
compares emails with the exact, case-sensitive SQL equality, the call
succeeds, and a second Organization row is committed. -/
theorem c6_case_differing_email_not_rejected :
    (create_organization_with_owner c6Db exMeta c6Payload "2b2b" {}).outcome
      = .ok ({ email := "Alice@x.com", name := "Beta", schema_name := "beta_2b2b",
               subdomain := "beta" },
             { name := "Bob", email := "Alice@x.com", password := "hashed-pw",
               role := .ROLE_ADMIN, is_owner := true })
    ∧ (create_organization_with_owner c6Db exMeta c6Payload "2b2b" {}).db.organizations.length
        = 2 :=
  ⟨rfl, rfl⟩

/-- C6 amended: with the requested handle not reserved, validation rejects
the request as a duplicate exactly when some registered Tenant has the same
contact email under case-sensitive exact comparison, or the same subdomain as
the lowercased requested handle (several matching rows surface as the
multiple-results error of scalar_one_or_none instead of the 400). -/
theorem c6_duplicate_rejection_characterization
    (db0 : DbState) (meta0 : List TableObj) (payload : CreateOrganizationRequest)
    (slug : String) (oracle : FailureOracle)
    (hres : db0.reserved_subdomains.filter
        (fun r => r == pyLower payload.subdomain) = []) :
    ((create_organization_with_owner db0 meta0 payload slug oracle).outcome
        = .error (.httpException 400 "Org with this email or subdomain already exists.")
      ∨ (create_organization_with_owner db0 meta0 payload slug oracle).outcome
        = .error .multipleResultsFound)
    ↔ db0.organizations.filter
        (fun o => o.email == payload.email || o.subdomain == pyLower payload.subdomain)
        ≠ [] := by
  simp only [create_organization_with_owner]
  rw [hres]
  cases hm : db0.organizations.filter
      (fun o => o.email == payload.email || o.subdomain == pyLower payload.subdomain) with
  | nil =>
      simp only [hm, scalarOneOrNone]
      constructor
      · intro h
        rcases h with h | h <;> revert h <;> repeat' split
        all_goals intro h
        all_goals simp at h
      · intro h
        exact absurd rfl h
  | cons a t =>
      cases t with
      | nil => simp [hm, scalarOneOrNone]
      | cons b t2 => simp [hm, scalarOneOrNone]

/-- C6 witness: the amended characterization applied to a request repeating
the registered email exactly: the call is rejected as a duplicate. -/
theorem c6_witness :
    (create_organization_with_owner c6Db exMeta c6PayloadDup "3c3c" {}).outcome
      = .error (.httpException 400 "Org with this email or subdomain already exists.")
    ∨ (create_organization_with_owner c6Db exMeta c6PayloadDup "3c3c" {}).outcome
      = .error .multipleResultsFound :=
  (c6_duplicate_rejection_characterization c6Db exMeta c6PayloadDup "3c3c" {} rfl).mpr
    (by decide)

/-- C7 counterexample: a registry holding one ACTIVE organization whose
namespace is missing every tenant table.  The claim requires sync_all_tenants
to create the missing tables for this ACTIVE tenant; the call instead raises
AttributeError at select(Organization.schema) and leaves the database — in
particular the empty table set — untouched. -/
theorem c7_active_tenant_not_synced :
    (sync_all_tenants syncDb exMeta noFail).outcome
      = .error (.attributeError "type object Organization has no attribute schema")
    ∧ (sync_all_tenants syncDb exMeta noFail).db = syncDb :=
  ⟨rfl, rfl⟩

/-- C7 amended: sync_all_tenants applies no status filter.  As written, every
call fails with the AttributeError from select(Organization.schema) before
touching any namespace; under the intended schema_name reading of that one
line, the run processes the schema of every registered organization —
SUSPENDED and DELETED ones included — not just the ACTIVE ones. -/
theorem c7_no_status_filter_and_attribute_error :
    (∀ (db : DbState) (meta : List TableObj) (oracle : String → Bool),
        sync_all_tenants db meta oracle
          = { outcome := .error
                (.attributeError "type object Organization has no attribute schema"),
              db := db })
    ∧ (∀ (db : DbState) (meta : List TableObj),
        (sync_all_tenants_intended db meta noFail).outcome
          = .ok (db.organizations.map (fun o => o.schema_name))) := by
  constructor
  · intro db meta oracle
    rfl
  · intro db meta
    simpa [sync_all_tenants_intended] using
      sync_go_noFail_outcome (get_tenant_tables meta)
        (db.organizations.map (fun o => o.schema_name)) db []

/-- C8: idempotence of sync is the plain intent of the source (create_all
with checkfirst=True, per its own comment), but the code raises AttributeError
on every run — first and second alike — because line 46 reads
Organization.schema while the model defines schema_name.  Evaluated on a
one-tenant registry: both as-written runs fail and change nothing, while
under the intended schema_name reading the first run creates the two missing
tables and the second run is a clean no-op, confirming the claimed
idempotence of the loop itself. -/
theorem c8_sync_raises_on_every_run :
    (sync_all_tenants syncDb exMeta noFail).outcome
      = .error (.attributeError "type object Organization has no attribute schema")
    ∧ (sync_all_tenants (sync_all_tenants syncDb exMeta noFail).db exMeta noFail).outcome
      = .error (.attributeError "type object Organization has no attribute schema")
    ∧ (sync_all_tenants_intended syncDb exMeta noFail).db.tables
      = [("acme_11", "users"), ("acme_11", "categories")]
    ∧ (sync_all_tenants_intended
        (sync_all_tenants_intended syncDb exMeta noFail).db exMeta noFail).db.tables
      = [("acme_11", "users"), ("acme_11", "categories")]
    ∧ (sync_all_tenants_intended
        (sync_all_tenants_intended syncDb exMeta noFail).db exMeta noFail).outcome
      = .ok ["acme_11"] :=
  ⟨rfl, rfl, rfl, rfl, rfl⟩

/-- C9 counterexample: two registered tenants, and a storage failure while
syncing the first.  The loop has no per-tenant handler: the error escapes the
whole call as a single result, and the second tenant is never processed — its
missing tables are not created — contradicting the claim that one tenant
failure does not abort the rest and that outcomes are reported per tenant.
(As written the call does not even reach the loop, failing earlier at
select(Organization.schema).) -/
theorem c9_sync_failure_aborts_rest_eval :
    (sync_all_tenants_intended syncDb2 exMeta failAcme).outcome
      = .error (.storageError "create_all failed for schema acme_11")
    ∧ (sync_all_tenants_intended syncDb2 exMeta failAcme).db.tables = []
    ∧ (sync_all_tenants syncDb2 exMeta failAcme).db = syncDb2 :=
  ⟨rfl, rfl, rfl⟩

/-- C9 amended: in the per-tenant loop (taken with the intended schema_name
reading of line 46), a create_all failure on one tenant aborts the whole run:
the storage error escapes as the single result of the call — no per-tenant
outcome is reported — and the database afterwards is exactly what the
pre-failure tenants left, the tenants after the failing one never being
examined. -/
theorem c9_failure_aborts_remaining_tenants
    (meta : List TableObj) (oracle : String → Bool)
    (preOrgs postOrgs : List Organization) (bad : Organization) (db : DbState)
    (horgs : db.organizations = preOrgs ++ bad :: postOrgs)
    (hpre : ∀ o ∈ preOrgs, oracle o.schema_name = false)
    (hbad : oracle bad.schema_name = true) :
    sync_all_tenants_intended db meta oracle
      = { outcome := .error
            (.storageError ("create_all failed for schema " ++ bad.schema_name)),
          db := (sync_go (get_tenant_tables meta) oracle
                  (preOrgs.map (fun o => o.schema_name)) db []).db } := by
  simp only [sync_all_tenants_intended, horgs, List.map_append, List.map_cons]
  exact sync_go_abort _ oracle _ _ _ db []
    (fun x hx => by
      rcases List.mem_map.mp hx with ⟨o, ho, rfl⟩
      exact hpre o ho)
    hbad

/-- C9 witness: the amended theorem applied to the two-tenant registry with
the failure on the first tenant. -/
theorem c9_witness :
    sync_all_tenants_intended syncDb2 exMeta failAcme
      = { outcome := .error
            (.storageError ("create_all failed for schema " ++ acmeOrg.schema_name)),
          db := (sync_go (get_tenant_tables exMeta) failAcme
                  (([] : List Organization).map (fun o => o.schema_name)) syncDb2 []).db } :=
  c9_failure_aborts_remaining_tenants exMeta failAcme [] [betaOrg] acmeOrg syncDb2
    rfl (by simp) (by decide)

/-- C10: create_organization_with_owner mutates the shared canonical Table
objects in place.  Once validation passes and the namespace step runs, every
tenant-local table blueprint has its schema field set to the new tenant
namespace; if table creation raises, the function aborts — the database rolls
back — with the shared metadata still bound to the aborted tenant namespace,
and only when table creation succeeds does the restore loop run, leaving
every tenant-local blueprint back at schema None (also when the later owner
insertion fails, since the restore precedes it). -/
theorem c10_shared_metadata_mutation
    (db0 : DbState) (meta0 : List TableObj) (payload : CreateOrganizationRequest)
    (slug : String) (oracle : FailureOracle) (st : OrgStatus) (rt : RagType)
    (hres : db0.reserved_subdomains.filter
        (fun r => r == pyLower payload.subdomain) = [])
    (hdup : db0.organizations.filter
        (fun o => o.email == payload.email || o.subdomain == pyLower payload.subdomain)
        = [])
    (hcs : oracle.failCreateSchema = false)
    (hst : OrgStatus.parse payload.status = some st)
    (hrt : RagType.parse payload.rag_type = some rt) :
    (oracle.failCreateTables = true →
        (create_organization_with_owner db0 meta0 payload slug oracle).meta
          = bindTenantTables meta0 (pyLower payload.subdomain ++ "_" ++ slug)
        ∧ (create_organization_with_owner db0 meta0 payload slug oracle).db = db0)
    ∧ (oracle.failCreateTables = false →
        (create_organization_with_owner db0 meta0 payload slug oracle).meta
          = unbindTenantTables meta0) := by
  simp only [create_organization_with_owner]
  rw [hres, hdup]
  simp only [scalarOneOrNone, hcs, hst, hrt, Bool.false_eq_true, if_false]
  constructor
  · intro hft
    rw [hft]
    exact ⟨rfl, rfl⟩
  · intro hff
    rw [hff]
    cases hio : oracle.failInsertOwner <;> simp [hio]

/-- C10 witness: with table creation failing, the shared metadata afterwards
is the canonical set bound to the aborted tenant namespace while the database
is rolled back. -/
theorem c10_witness :
    (create_organization_with_owner exDb exMeta exPayload "1f2e"
        { failCreateTables := true }).meta
      = bindTenantTables exMeta (pyLower exPayload.subdomain ++ "_" ++ "1f2e")
    ∧ (create_organization_with_owner exDb exMeta exPayload "1f2e"
        { failCreateTables := true }).db = exDb :=
  (c10_shared_metadata_mutation exDb exMeta exPayload "1f2e"
      { failCreateTables := true } .ACTIVE .BASIC rfl rfl rfl rfl rfl).1 rfl

end CrmRaag
